import Mathlib

/-!
# Verification of the snow drought index data-preparation pipeline

Shallow embedding of `snowdroughtindex/core/data_preparation.py` and proofs
about its documented behaviour.  Tabular data is modelled as lists of rows,
labelled datasets as explicit coordinate lists plus value functions, and the
Python exception discipline (`raise` inside a `try` block whose handler
re-raises `RuntimeError(f"{context}: {str(e)}")`) as an `Except` monad with an
explicit wrapping step.
-/

namespace SnowDrought

/-- Python exception kinds observable from the module, with their message. -/
inductive Err where
  | valueError (msg : String)
  | typeError (msg : String)
  | indexError (msg : String)
  | keyError (msg : String)
  | runtimeError (msg : String)
deriving DecidableEq

/-- `str(e)` of an exception: the carried message. -/
def Err.msg : Err → String
  | .valueError m => m
  | .typeError m => m
  | .indexError m => m
  | .keyError m => m
  | .runtimeError m => m

/-- The `try:/except Exception as e: raise RuntimeError(f"{ctx}{str(e)}")`
pattern used by every pipeline function: a success passes through, an
exception is re-raised as a `RuntimeError` carrying the original message. -/
def wrapRuntime (ctx : String) : Except Err α → Except Err α
  | .ok a => .ok a
  | .error e => .error (.runtimeError (ctx ++ e.msg))

/-! ## Preprocessors (`preprocess_swe`, `preprocess_precip`) -/

/-- One observation row of the flat table obtained from `Dataset.to_dataframe()`.
`timeIsDatetime` records whether the `time` entry has been coerced by
`pd.to_datetime` (the numeric instant itself is unchanged by the coercion). -/
structure NRow where
  station_id : String
  time : Nat
  timeIsDatetime : Bool
  value : ℚ
deriving DecidableEq

/-- The DataFrame produced by `to_dataframe()`: rows plus the flag telling
whether its row index is a `pd.MultiIndex`. -/
structure RawFrame where
  isMultiIndex : Bool
  rows : List NRow
deriving DecidableEq

/-- An `xarray.Dataset` for the preprocessors, characterised by the DataFrame
its `to_dataframe()` call yields. -/
structure XrDataset where
  frame : RawFrame
deriving DecidableEq

/-- `ds.to_dataframe()`. -/
def to_dataframe (d : XrDataset) : RawFrame := d.frame

/-- `df.reset_index()`: the MultiIndex is flattened into ordinary columns;
row content is preserved. -/
def reset_index (f : RawFrame) : RawFrame := { f with isMultiIndex := false }

/-- A row of the preprocessor output: the observation plus the two constant
metadata columns appended by the preprocessors. -/
structure MetaRow where
  base : NRow
  data_source : String
  units : String
deriving DecidableEq

/-- `preprocess_swe`: convert to a DataFrame, reset a MultiIndex, append the
constant `data_source`/`units` columns; any exception is wrapped. -/
def preprocess_swe (swe_data : XrDataset) : Except Err (List MetaRow) :=
  wrapRuntime "Error during SWE preprocessing: " (
    let swe_df := to_dataframe swe_data
    let swe_df := if swe_df.isMultiIndex then reset_index swe_df else swe_df
    .ok (swe_df.rows.map (fun r => { base := r, data_source := "SWE", units := "mm" })))

/-- `pd.to_datetime` applied to one `time` entry: marks it as datetime. -/
def to_datetime_n (r : NRow) : NRow := { r with timeIsDatetime := true }

/-- `preprocess_precip`: like `preprocess_swe` but also coerces the `time`
column to datetime and tags rows as precipitation. -/
def preprocess_precip (precip_data : XrDataset) : Except Err (List MetaRow) :=
  wrapRuntime "Error during precipitation preprocessing: " (
    let precip_df := to_dataframe precip_data
    let precip_df := if precip_df.isMultiIndex then reset_index precip_df else precip_df
    let precip_df := { precip_df with rows := precip_df.rows.map to_datetime_n }
    .ok (precip_df.rows.map (fun r =>
      { base := r, data_source := "Precipitation", units := "mm" })))

/-! ## `filter_stations` -/

/-- A generic flat-table row used by `filter_stations`; its `station_id`
entry is meaningful only when the frame's schema lists that column. -/
structure FRow where
  station_id : String
  value : ℚ
deriving DecidableEq

/-- A plain `pandas.DataFrame`: an explicit column schema plus rows. -/
structure PFrame where
  columns : List String
  rows : List FRow
deriving DecidableEq

/-- A minimal `xarray.Dataset` as seen by `filter_stations`: its
`station_id` coordinate. -/
structure SelDataset where
  station_ids : List String
deriving DecidableEq

/-- The runtime-dispatched input of `filter_stations` and the shape of its
output: a DataFrame, a Dataset, or any other Python object. -/
inductive FilterInput where
  | frame (df : PFrame)
  | dataset (ds : SelDataset)
  | otherInput
deriving DecidableEq

/-- `filter_stations`: DataFrame path filters rows by `station_id` membership
(after checking the column exists), Dataset path selects along the
`station_id` coordinate, anything else is a `TypeError`; every raised
exception is wrapped into a `RuntimeError` by the handler. -/
def filter_stations (data : FilterInput) (stations_list : List String) :
    Except Err FilterInput :=
  wrapRuntime "Error during station filtering: " (
    match data with
    | .frame df =>
      if "station_id" ∈ df.columns then
        .ok (.frame { df with
          rows := df.rows.filter (fun r => r.station_id ∈ stations_list) })
      else
        .error (.valueError "DataFrame does not contain 'station_id' column")
    | .dataset ds =>
      if stations_list.all (fun s => s ∈ ds.station_ids) then
        .ok (.dataset { station_ids := stations_list })
      else
        .error (.keyError "not all values found in index 'station_id'")
    | .otherInput =>
      .error (.typeError "Data must be a pandas DataFrame or xarray Dataset"))

/-! ## `assess_data_availability` -/

/-- A labelled dataset for availability assessment: a `time` coordinate, and
values indexed by station, a further retained dimension value, and the time
index; `none` is a missing (NaN) observation. -/
structure AvDataset where
  times : List Nat
  values : String → Nat → Nat → Option ℚ

/-- `data.count(dim=time_dim)` at one (station, retained-dimension) cell:
the number of non-missing observations along time. -/
def countNonMissing (ds : AvDataset) (s : String) (o : Nat) : Nat :=
  (List.range ds.times.length).countP (fun t => (ds.values s o t).isSome)

/-- `assess_data_availability`: per retained cell,
`(count / total_times) * 100`. -/
def assess_data_availability (ds : AvDataset) (s : String) (o : Nat) : ℚ :=
  ((countNonMissing ds s o : ℚ) / (ds.times.length : ℚ)) * 100

/-! ## `extract_stations_in_basin`

Geometry is abstract: geometries are handles (`Nat`), and the three library
operations the function uses — the `within` predicate, `to_crs` reprojection
of a single geometry to a target EPSG code, and metric `buffer` — are
parameters of the embedding.  A GeoDataFrame carries its EPSG code as `crs`. -/

/-- A station row of the stations GeoDataFrame. -/
structure StRow where
  station_id : String
  geometry : Nat
deriving DecidableEq

/-- A station row after `.assign(basin=basin_id)`. -/
structure StOutRow where
  station_id : String
  geometry : Nat
  basin : String
deriving DecidableEq

/-- The stations GeoDataFrame. -/
structure StFrame where
  crs : Nat
  rows : List StRow
deriving DecidableEq

/-- A basin-shapefile row; `Station_ID` is the basin identifier column. -/
structure BasRow where
  Station_ID : String
  geometry : Nat
deriving DecidableEq

/-- The basin-shapefile GeoDataFrame. -/
structure BasFrame where
  crs : Nat
  rows : List BasRow
deriving DecidableEq

/-- The second return value of `extract_stations_in_basin`: the literal
integer `0`, or a buffered geometry series tagged with its EPSG code. -/
inductive BufferResult where
  | zero
  | geom (crs : Nat) (geoms : List Nat)
deriving DecidableEq

/-- `basin_shapefile.loc[basin_shapefile['Station_ID'] == basin_id]`. -/
def basinMatches (basins : BasFrame) (basin_id : String) : List BasRow :=
  basins.rows.filter (fun b => b.Station_ID == basin_id)

/-- `extract_stations_in_basin`, parametric in the geometry library:
`withinG g h` is `g.within(h)`, `toCrsG g c` reprojects geometry `g` to EPSG
`c`, `bufferG g m` buffers `g` by `m` meters.  An empty basin match makes
`iloc[0]` raise (wrapped).  With `buffer_km > 0` everything is reprojected to
EPSG 3763, the basin is buffered by `buffer_km * 1000` meters, containment is
tested against the first buffered geometry, and the buffer series is
reprojected to EPSG 4326 for the return; otherwise containment is tested
against the raw basin geometry and the second result is the integer `0`. -/
def extract_stations_in_basin (withinG : Nat → Nat → Bool)
    (toCrsG : Nat → Nat → Nat) (bufferG : Nat → ℚ → Nat)
    (stations : StFrame) (basin_shapefile : BasFrame)
    (basin_id : String) (buffer_km : ℚ) :
    Except Err (List StOutRow × BufferResult) :=
  wrapRuntime "Error during station extraction: " (
    match basinMatches basin_shapefile basin_id with
    | [] => .error (.indexError "single positional indexer is out-of-bounds")
    | b :: rest =>
      let basin_geom := b.geometry
      if buffer_km > 0 then
        let buffer_m := buffer_km * 1000
        let basin_buffer_m :=
          ((b :: rest).map (fun r => toCrsG r.geometry 3763)).map
            (fun g => bufferG g buffer_m)
        let mask := fun (r : StRow) =>
          withinG (toCrsG r.geometry 3763) (basin_buffer_m.headD 0)
        let basin_buffer := BufferResult.geom 4326 (basin_buffer_m.map (fun g => toCrsG g 4326))
        .ok ((stations.rows.filter mask).map
          (fun r => { station_id := r.station_id, geometry := r.geometry, basin := basin_id }),
          basin_buffer)
      else
        .ok ((stations.rows.filter (fun r => withinG r.geometry basin_geom)).map
          (fun r => { station_id := r.station_id, geometry := r.geometry, basin := basin_id }),
          BufferResult.zero))

/-! ## `spatial_join` -/

/-- Shapely geometry classes distinguished by the validation code. -/
inductive GeomTy where
  | point
  | polygon
  | multiPolygon
  | lineString
deriving DecidableEq

/-- A GeoDataFrame row for `spatial_join`: geometry class plus handle. -/
structure GeoRow where
  geomTy : GeomTy
  geom : Nat
deriving DecidableEq

/-- A GeoDataFrame for `spatial_join`. -/
structure GeoFrame where
  crs : Nat
  rows : List GeoRow
deriving DecidableEq

/-- `spatial_join`, parametric in the library join `gpd.sjoin` (`sjoinF`):
validates that the first frame holds only points and the second only
polygons/multipolygons, that the CRS tags agree, and only then runs the
join; every raised exception is wrapped into a `RuntimeError`. -/
def spatial_join (sjoinF : GeoFrame → GeoFrame → List (GeoRow × GeoRow))
    (points_gdf polygons_gdf : GeoFrame) : Except Err (List (GeoRow × GeoRow)) :=
  wrapRuntime "Error during spatial join: " (
    if ¬ (points_gdf.rows.all (fun r => r.geomTy == GeomTy.point)) then
      .error (.valueError "points_gdf must contain only Point geometries")
    else if ¬ (polygons_gdf.rows.all (fun r =>
        r.geomTy == GeomTy.polygon || r.geomTy == GeomTy.multiPolygon)) then
      .error (.valueError "polygons_gdf must contain only Polygon or MultiPolygon geometries")
    else if points_gdf.crs ≠ polygons_gdf.crs then
      .error (.valueError "Coordinate systems of points and polygons must match")
    else
      .ok (sjoinF points_gdf polygons_gdf))

/-! ## `update_coordinates` (DataFrame variant) -/

/-- A primary-table row for `update_coordinates`: station id plus the two
coordinate columns that may be overwritten. -/
structure DataRow where
  station_id : String
  lat : ℚ
  lon : ℚ
deriving DecidableEq

/-- A row of the coordinate-update table. -/
structure CoordRow where
  station_id : String
  New_Lat : ℚ
  New_Lon : ℚ
deriving DecidableEq

/-- `pandas.unique` order-preserving deduplication (first occurrence wins),
via an accumulator of already-seen ids. -/
def uniqueAux (seen : List String) : List String → List String
  | [] => []
  | x :: xs => if x ∈ seen then uniqueAux seen xs else x :: uniqueAux (x :: seen) xs

/-- `series.unique()`: distinct values in order of first appearance. -/
def uniqueKeepFirst (l : List String) : List String := uniqueAux [] l

/-- `coord_map[station_id]`: dictionary lookup in the map built by
`coordinates_df.set_index(id_col)[[lat_col, lon_col]].to_dict('index')`. -/
def coordLookup (coords : List CoordRow) (sid : String) : Option CoordRow :=
  coords.find? (fun c => c.station_id == sid)

/-- One iteration of the update loop for station id `sid`:
`data.loc[data['station_id'] == sid, ['lat','lon']] = coord_map[sid]`,
a no-op when `sid` is absent from the map. -/
def applyUpdate (coords : List CoordRow) (data : List DataRow) (sid : String) :
    List DataRow :=
  match coordLookup coords sid with
  | some c => data.map (fun r =>
      if r.station_id == sid then { r with lat := c.New_Lat, lon := c.New_Lon } else r)
  | none => data

/-- `update_coordinates` on a DataFrame: builds the lookup dictionary
(`to_dict('index')` raises `ValueError` on a duplicated index, before the
`try` block, hence unwrapped), then loops over the distinct station ids of
the primary table, overwriting matching rows in place.  The result pair is
(the primary table's state after the call, the returned value); the source
returns the mutated object itself, so the two components are the same
list. -/
def update_coordinates_df (data : List DataRow) (coordinates_df : List CoordRow) :
    Except Err (List DataRow × List DataRow) :=
  if (coordinates_df.map (fun c => c.station_id)).Nodup then
    let station_ids := uniqueKeepFirst (data.map (fun r => r.station_id))
    let final := station_ids.foldl (applyUpdate coordinates_df) data
    .ok (final, final)
  else
    .error (.valueError "DataFrame index must be unique for orient='index'")

/-! ## `convert_hourly_to_daily` -/

/-- An hourly observation row; `time` is an instant in hours,
`timeIsDatetime` tells whether the column has been through `pd.to_datetime`. -/
structure HRow where
  station_id : String
  time : Nat
  timeIsDatetime : Bool
  value : ℚ
deriving DecidableEq

/-- A row of the daily output: calendar day, daily mean (`none` is the NaN a
day without observations receives from `resample('D').mean()`), station id. -/
structure DRow where
  time : Nat
  value : Option ℚ
  station_id : String
deriving DecidableEq

/-- `pd.to_datetime` on one hourly row. -/
def to_datetime_h (r : HRow) : HRow := { r with timeIsDatetime := true }

/-- The calendar day containing hour instant `t`. -/
def dayOf (t : Nat) : Nat := t / 24

/-- `df[df['station_id'] == station_id]`. -/
def stationData (df : List HRow) (s : String) : List HRow :=
  df.filter (fun r => r.station_id == s)

/-- The values a given calendar day holds in `rows`. -/
def valuesOnDay (rows : List HRow) (d : Nat) : List ℚ :=
  (rows.filter (fun r => dayOf r.time == d)).map (fun r => r.value)

/-- The daily mean `resample('D')[value_col].mean()` assigns to day `d`:
NaN (`none`) when the day is empty, the arithmetic mean otherwise. -/
def dayMean (rows : List HRow) (d : Nat) : Option ℚ :=
  let vs := valuesOnDay rows d
  if vs.length = 0 then none else some (vs.sum / (vs.length : ℚ))

/-- First calendar day appearing in `rows` (`0` for an empty list). -/
def minDay (rows : List HRow) : Nat :=
  match rows with
  | [] => 0
  | r :: rs => rs.foldl (fun m x => min m (dayOf x.time)) (dayOf r.time)

/-- Last calendar day appearing in `rows` (`0` for an empty list). -/
def maxDay (rows : List HRow) : Nat :=
  match rows with
  | [] => 0
  | r :: rs => rs.foldl (fun m x => max m (dayOf x.time)) (dayOf r.time)

/-- The calendar days `resample('D')` materialises: every day from the
earliest to the latest observation day, inclusive. -/
def daysRange (rows : List HRow) : List Nat :=
  (List.range (maxDay rows - minDay rows + 1)).map (fun i => minDay rows + i)

/-- `station_data.set_index(time).resample('D')[value_col].mean()` followed by
`reset_index()` and `daily_station['station_id'] = station_id`. -/
def resampleDailyMean (rows : List HRow) (s : String) : List DRow :=
  (daysRange rows).map (fun d => { time := d, value := dayMean rows d, station_id := s })

/-- `convert_hourly_to_daily`: first coerces the caller's `time` column in
place (`df[time_col] = pd.to_datetime(df[time_col])`), then resamples each
distinct station to daily means and concatenates the per-station blocks.
The result pair is (the caller's table after the call, the returned daily
table); `pd.concat` of an empty list raises (wrapped). -/
def convert_hourly_to_daily (df : List HRow) :
    List HRow × Except Err (List DRow) :=
  let df2 := df.map to_datetime_h
  let station_ids := uniqueKeepFirst (df2.map (fun r => r.station_id))
  let daily_data := station_ids.map (fun s => resampleDailyMean (stationData df2 s) s)
  (df2,
    if daily_data.length = 0 then
      .error (.runtimeError
        "Error during hourly to daily conversion: No objects to concatenate")
    else
      .ok daily_data.flatten)

/-! ## Helper lemmas -/

theorem wrapRuntime_ok {α : Type} {ctx : String} {x : Except Err α} {a : α} :
    wrapRuntime ctx x = .ok a ↔ x = .ok a := by
  cases x <;> simp [wrapRuntime]

/-! ## Claim theorems -/

/-- C7: every row returned by `preprocess_swe` carries `data_source = "SWE"`
and `units = "mm"`, and every row returned by `preprocess_precip` carries
`data_source = "Precipitation"` and `units = "mm"`. -/
theorem preprocess_metadata_constant (d d2 : XrDataset)
    (out out2 : List MetaRow)
    (h1 : preprocess_swe d = .ok out) (h2 : preprocess_precip d2 = .ok out2) :
    (∀ r ∈ out, r.data_source = "SWE" ∧ r.units = "mm") ∧
    (∀ r ∈ out2, r.data_source = "Precipitation" ∧ r.units = "mm") := by
  rw [preprocess_swe, wrapRuntime_ok] at h1
  rw [preprocess_precip, wrapRuntime_ok] at h2
  constructor
  · intro r hr
    have hout := (Except.ok.injEq _ _).mp h1
    rw [← hout] at hr
    obtain ⟨x, _, hx⟩ := List.mem_map.mp hr
    rw [← hx]
    exact ⟨rfl, rfl⟩
  · intro r hr
    have hout := (Except.ok.injEq _ _).mp h2
    rw [← hout] at hr
    obtain ⟨x, _, hx⟩ := List.mem_map.mp hr
    rw [← hx]
    exact ⟨rfl, rfl⟩

/-- Concrete dataset for exercising the preprocessors. -/
def exSweDs : XrDataset :=
  { frame := { isMultiIndex := true,
               rows := [{ station_id := "A", time := 5, timeIsDatetime := false, value := 7 }] } }

/-- Expected `preprocess_swe` output on `exSweDs`. -/
def exSweOut : List MetaRow :=
  [{ base := { station_id := "A", time := 5, timeIsDatetime := false, value := 7 },
     data_source := "SWE", units := "mm" }]

/-- Expected `preprocess_precip` output on `exSweDs`. -/
def exPrecipOut : List MetaRow :=
  [{ base := { station_id := "A", time := 5, timeIsDatetime := true, value := 7 },
     data_source := "Precipitation", units := "mm" }]

theorem preprocess_metadata_constant_witness :
    (preprocess_swe exSweDs = .ok exSweOut) ∧
    (preprocess_precip exSweDs = .ok exPrecipOut) ∧
    ((∀ r ∈ exSweOut, r.data_source = "SWE" ∧ r.units = "mm") ∧
     (∀ r ∈ exPrecipOut, r.data_source = "Precipitation" ∧ r.units = "mm")) :=
  ⟨rfl, rfl, preprocess_metadata_constant exSweDs exSweDs _ _ rfl rfl⟩

/-- C4: a DataFrame lacking a `station_id` column makes `filter_stations`
fail — the precondition is checked before any filtering, the raised
`ValueError` surfaces through the handler as a `RuntimeError` carrying the
precondition message, and no output is produced. -/
theorem filter_stations_missing_column (df : PFrame) (sl : List String)
    (h : "station_id" ∉ df.columns) :
    filter_stations (.frame df) sl =
      .error (.runtimeError
        "Error during station filtering: DataFrame does not contain 'station_id' column") := by
  rw [filter_stations]
  simp only [if_neg h]
  rfl

/-- A DataFrame whose schema lacks the `station_id` column. -/
def exNoIdFrame : PFrame := { columns := ["value"], rows := [] }

theorem filter_stations_missing_column_witness :
    ("station_id" ∉ exNoIdFrame.columns) ∧
    filter_stations (.frame exNoIdFrame) ["A"] =
      .error (.runtimeError
        "Error during station filtering: DataFrame does not contain 'station_id' column") :=
  ⟨by decide, filter_stations_missing_column exNoIdFrame ["A"] (by decide)⟩

/-- C5: with a non-empty time dimension, a station with no missing
observation has availability exactly 100 at every retained dimension value,
and a station with only missing observations has availability exactly 0. -/
theorem assess_availability_extremes (ds : AvDataset) (s : String)
    (ht : ds.times ≠ []) :
    ((∀ o t, t < ds.times.length → (ds.values s o t).isSome = true) →
      ∀ o, assess_data_availability ds s o = 100) ∧
    ((∀ o t, t < ds.times.length → ds.values s o t = none) →
      ∀ o, assess_data_availability ds s o = 0) := by
  have hpos : 0 < ds.times.length := List.length_pos.mpr ht
  have hcast : (ds.times.length : ℚ) ≠ 0 := Nat.cast_ne_zero.mpr hpos.ne'
  constructor
  · intro h o
    have hcount : countNonMissing ds s o = ds.times.length := by
      calc countNonMissing ds s o = (List.range ds.times.length).length :=
            List.countP_eq_length.mpr (fun t htm => h o t (List.mem_range.mp htm))
        _ = ds.times.length := List.length_range _
    rw [assess_data_availability, hcount, div_self hcast]
    norm_num
  · intro h o
    have hcount : countNonMissing ds s o = 0 := by
      rw [countNonMissing]
      exact List.countP_eq_zero.mpr (fun t htm => by
        simp [h o t (List.mem_range.mp htm)])
    rw [assess_data_availability, hcount]
    norm_num

/-- A dataset whose station "A" is fully observed and whose other stations
are entirely missing. -/
def exAvDs : AvDataset :=
  { times := [0, 1],
    values := fun s _ _ => if s = "A" then some 1 else none }

theorem assess_availability_extremes_witness :
    (exAvDs.times ≠ []) ∧
    (assess_data_availability exAvDs "A" 0 = 100) ∧
    (assess_data_availability exAvDs "B" 0 = 0) :=
  ⟨by decide,
   (assess_availability_extremes exAvDs "A" (by decide)).1
     (fun o t _ => by simp [exAvDs]) 0,
   (assess_availability_extremes exAvDs "B" (by decide)).2
     (fun o t _ => by simp [exAvDs]) 0⟩

/-- C8: any geometry-class violation or CRS mismatch makes `spatial_join`
fail with an error, and the result does not depend on the underlying join
operation — the join is never executed and no joined table is produced. -/
theorem spatial_join_validation_failure (points_gdf polygons_gdf : GeoFrame)
    (h : (∃ r ∈ points_gdf.rows, r.geomTy ≠ GeomTy.point) ∨
         (∃ r ∈ polygons_gdf.rows,
            r.geomTy ≠ GeomTy.polygon ∧ r.geomTy ≠ GeomTy.multiPolygon) ∨
         points_gdf.crs ≠ polygons_gdf.crs) :
    ∃ e, ∀ sjoinF, spatial_join sjoinF points_gdf polygons_gdf = .error e := by
  by_cases h1 : points_gdf.rows.all (fun r => r.geomTy == GeomTy.point) = true
  · by_cases h2 : polygons_gdf.rows.all (fun r =>
        r.geomTy == GeomTy.polygon || r.geomTy == GeomTy.multiPolygon) = true
    · have h3 : points_gdf.crs ≠ polygons_gdf.crs := by
        rcases h with ⟨r, hr, hne⟩ | ⟨r, hr, hne⟩ | h3
        · exact absurd (by simpa using List.all_eq_true.mp h1 r hr) hne
        · have hmem := List.all_eq_true.mp h2 r hr
          simp only [Bool.or_eq_true, beq_iff_eq] at hmem
          rcases hmem with hp | hp
          · exact absurd hp hne.1
          · exact absurd hp hne.2
        · exact h3
      exact ⟨_, fun f => by
        rw [spatial_join, if_neg (not_not_intro h1), if_neg (not_not_intro h2),
          if_pos h3]
        rfl⟩
    · exact ⟨_, fun f => by
        rw [spatial_join, if_neg (not_not_intro h1), if_pos h2]
        rfl⟩
  · exact ⟨_, fun f => by rw [spatial_join, if_pos h1]; rfl⟩

/-- A point layer in EPSG 4326. -/
def exPts : GeoFrame := { crs := 4326, rows := [{ geomTy := GeomTy.point, geom := 1 }] }

/-- A polygon layer in EPSG 3857, mismatching `exPts`. -/
def exPolys : GeoFrame := { crs := 3857, rows := [{ geomTy := GeomTy.polygon, geom := 2 }] }

theorem spatial_join_validation_failure_witness :
    ((∃ r ∈ exPts.rows, r.geomTy ≠ GeomTy.point) ∨
     (∃ r ∈ exPolys.rows,
        r.geomTy ≠ GeomTy.polygon ∧ r.geomTy ≠ GeomTy.multiPolygon) ∨
     exPts.crs ≠ exPolys.crs) ∧
    ∃ e, ∀ f, spatial_join f exPts exPolys = .error e :=
  ⟨Or.inr (Or.inr (by decide)),
   spatial_join_validation_failure exPts exPolys (Or.inr (Or.inr (by decide)))⟩

/-- Characterisation of `extract_stations_in_basin` when the basin lookup
finds at least one row. -/
theorem extract_eq_of_matches (withinG : Nat → Nat → Bool)
    (toCrsG : Nat → Nat → Nat) (bufferG : Nat → ℚ → Nat)
    (stations : StFrame) (basin_shapefile : BasFrame)
    (basin_id : String) (buffer_km : ℚ) (b : BasRow) (rest : List BasRow)
    (hm : basinMatches basin_shapefile basin_id = b :: rest) :
    extract_stations_in_basin withinG toCrsG bufferG stations basin_shapefile
      basin_id buffer_km =
    (if buffer_km > 0 then
      .ok ((stations.rows.filter (fun r =>
          withinG (toCrsG r.geometry 3763)
            (bufferG (toCrsG b.geometry 3763) (buffer_km * 1000)))).map
        (fun r => { station_id := r.station_id, geometry := r.geometry, basin := basin_id }),
        BufferResult.geom 4326
          ((((b :: rest).map (fun r => toCrsG r.geometry 3763)).map
              (fun g => bufferG g (buffer_km * 1000))).map (fun g => toCrsG g 4326)))
    else
      .ok ((stations.rows.filter (fun r => withinG r.geometry b.geometry)).map
        (fun r => { station_id := r.station_id, geometry := r.geometry, basin := basin_id }),
        BufferResult.zero)) := by
  rw [extract_stations_in_basin, hm]
  by_cases hb : buffer_km > 0
  · simp only [hb, if_true, ite_true]
    rfl
  · simp only [hb, if_false, ite_false]
    rfl

/-- Characterisation of `extract_stations_in_basin` when the basin lookup
finds nothing: `iloc[0]` raises and the handler wraps it. -/
theorem extract_eq_of_no_match (withinG : Nat → Nat → Bool)
    (toCrsG : Nat → Nat → Nat) (bufferG : Nat → ℚ → Nat)
    (stations : StFrame) (basin_shapefile : BasFrame)
    (basin_id : String) (buffer_km : ℚ)
    (hm : basinMatches basin_shapefile basin_id = []) :
    extract_stations_in_basin withinG toCrsG bufferG stations basin_shapefile
      basin_id buffer_km =
    .error (.runtimeError
      "Error during station extraction: single positional indexer is out-of-bounds") := by
  rw [extract_stations_in_basin, hm]
  rfl

/-- C2: a successful `extract_stations_in_basin` call returns the literal
`0` as second element exactly when `buffer_km = 0`, and a geometry series
(never `0`) when `buffer_km > 0`. -/
theorem extract_buffer_flag (withinG : Nat → Nat → Bool)
    (toCrsG : Nat → Nat → Nat) (bufferG : Nat → ℚ → Nat)
    (stations : StFrame) (basin_shapefile : BasFrame)
    (basin_id : String) (buffer_km : ℚ) (res : List StOutRow × BufferResult)
    (hok : extract_stations_in_basin withinG toCrsG bufferG stations basin_shapefile
      basin_id buffer_km = .ok res) :
    (buffer_km = 0 → res.2 = BufferResult.zero) ∧
    (buffer_km > 0 → res.2 ≠ BufferResult.zero ∧
      ∃ c gs, res.2 = BufferResult.geom c gs) := by
  cases hm : basinMatches basin_shapefile basin_id with
  | nil =>
    rw [extract_eq_of_no_match withinG toCrsG bufferG stations basin_shapefile
      basin_id buffer_km hm] at hok
    exact absurd hok (by simp)
  | cons b rest =>
    rw [extract_eq_of_matches withinG toCrsG bufferG stations basin_shapefile
      basin_id buffer_km b rest hm] at hok
    by_cases hb : buffer_km > 0
    · rw [if_pos hb, Except.ok.injEq] at hok
      constructor
      · intro h0
        rw [h0] at hb
        exact absurd hb (lt_irrefl 0)
      · intro _
        rw [← hok]
        exact ⟨by simp, 4326, _, rfl⟩
    · rw [if_neg hb, Except.ok.injEq] at hok
      constructor
      · intro _
        rw [← hok]
      · intro h
        exact absurd h hb

/-- Constantly-true containment predicate, for concrete runs. -/
def cwTrue : Nat → Nat → Bool := fun _ _ => true

/-- Identity reprojection, for concrete runs. -/
def crsId : Nat → Nat → Nat := fun g _ => g

/-- Identity buffering, for concrete runs. -/
def bufId : Nat → ℚ → Nat := fun g _ => g

/-- One station in EPSG 4326. -/
def exStations : StFrame := { crs := 4326, rows := [{ station_id := "S1", geometry := 10 }] }

/-- One basin in EPSG 4326. -/
def exBasins : BasFrame := { crs := 4326, rows := [{ Station_ID := "B1", geometry := 20 }] }

/-- Expected unbuffered extraction result on the example data. -/
def exRes0 : List StOutRow × BufferResult :=
  ([{ station_id := "S1", geometry := 10, basin := "B1" }], BufferResult.zero)

/-- Expected buffered extraction result on the example data. -/
def exRes1 : List StOutRow × BufferResult :=
  ([{ station_id := "S1", geometry := 10, basin := "B1" }], BufferResult.geom 4326 [20])

theorem extract_buffer_flag_witness :
    (extract_stations_in_basin cwTrue crsId bufId exStations exBasins "B1" 0 = .ok exRes0) ∧
    exRes0.2 = BufferResult.zero ∧
    (extract_stations_in_basin cwTrue crsId bufId exStations exBasins "B1" 1 = .ok exRes1) ∧
    exRes1.2 ≠ BufferResult.zero ∧ ∃ c gs, exRes1.2 = BufferResult.geom c gs :=
  ⟨rfl,
   (extract_buffer_flag cwTrue crsId bufId exStations exBasins "B1" 0 exRes0 rfl).1 rfl,
   rfl,
   ((extract_buffer_flag cwTrue crsId bufId exStations exBasins "B1" 1 exRes1 rfl).2
     (by norm_num)).1,
   ((extract_buffer_flag cwTrue crsId bufId exStations exBasins "B1" 1 exRes1 rfl).2
     (by norm_num)).2⟩

/-- C6 (amended): with `buffer_km > 0` the returned buffer series is tagged
with the hard-coded EPSG code 4326, whatever CRS the input collections
carried; it coincides with the inputs' CRS only when that CRS is 4326. -/
theorem extract_buffer_crs_hardcoded (withinG : Nat → Nat → Bool)
    (toCrsG : Nat → Nat → Nat) (bufferG : Nat → ℚ → Nat)
    (stations : StFrame) (basin_shapefile : BasFrame)
    (basin_id : String) (buffer_km : ℚ) (res : List StOutRow × BufferResult)
    (hb : buffer_km > 0)
    (hok : extract_stations_in_basin withinG toCrsG bufferG stations basin_shapefile
      basin_id buffer_km = .ok res) :
    ∀ c gs, res.2 = BufferResult.geom c gs → c = 4326 := by
  cases hm : basinMatches basin_shapefile basin_id with
  | nil =>
    rw [extract_eq_of_no_match withinG toCrsG bufferG stations basin_shapefile
      basin_id buffer_km hm] at hok
    exact absurd hok (by simp)
  | cons b rest =>
    rw [extract_eq_of_matches withinG toCrsG bufferG stations basin_shapefile
      basin_id buffer_km b rest hm, if_pos hb, Except.ok.injEq] at hok
    intro c gs hgeom
    rw [← hok] at hgeom
    exact ((BufferResult.geom.injEq _ _ _ _).mp hgeom).1.symm

/-- One station in EPSG 4269 (NAD83), to exercise a non-4326 input CRS. -/
def exStations4269 : StFrame := { crs := 4269, rows := [{ station_id := "S1", geometry := 10 }] }

/-- One basin in EPSG 4269 (NAD83). -/
def exBasins4269 : BasFrame := { crs := 4269, rows := [{ Station_ID := "B1", geometry := 20 }] }

/-- CRS tag of the returned buffer, when the call succeeded with a geometry. -/
def bufCrs : Except Err (List StOutRow × BufferResult) → Option Nat
  | .ok (_, BufferResult.geom c _) => some c
  | _ => none

/-- C6 counterexample: with inputs carried in EPSG 4269, the buffer returned
by `extract_stations_in_basin` is tagged EPSG 4326, not the original CRS. -/
theorem extract_buffer_crs_counterexample :
    bufCrs (extract_stations_in_basin cwTrue crsId bufId exStations4269 exBasins4269
      "B1" 1) = some 4326 ∧
    exStations4269.crs = 4269 ∧ exBasins4269.crs = 4269 ∧
    bufCrs (extract_stations_in_basin cwTrue crsId bufId exStations4269 exBasins4269
      "B1" 1) ≠ some exStations4269.crs := by
  exact ⟨rfl, rfl, rfl, by decide⟩

/-- Expected buffered extraction result on the EPSG 4269 example data. -/
def exRes4269 : List StOutRow × BufferResult :=
  ([{ station_id := "S1", geometry := 10, basin := "B1" }], BufferResult.geom 4326 [20])

theorem extract_buffer_crs_hardcoded_witness :
    ((1 : ℚ) > 0) ∧
    (extract_stations_in_basin cwTrue crsId bufId exStations4269 exBasins4269 "B1" 1 =
      .ok exRes4269) ∧
    (∀ c gs, exRes4269.2 = BufferResult.geom c gs → c = 4326) :=
  ⟨by norm_num, rfl,
   extract_buffer_crs_hardcoded cwTrue crsId bufId exStations4269 exBasins4269 "B1" 1
     exRes4269 (by norm_num) rfl⟩

/-- C9: a successful `extract_stations_in_basin` call returns exactly the
stations whose geometry the `within` predicate places inside the test
polygon — the selected basin buffered by `buffer_km * 1000` meters (after
reprojection to EPSG 3763) when `buffer_km > 0`, the raw basin geometry
otherwise — each annotated with the basin id; no other station appears. -/
theorem extract_membership_iff (withinG : Nat → Nat → Bool)
    (toCrsG : Nat → Nat → Nat) (bufferG : Nat → ℚ → Nat)
    (stations : StFrame) (basin_shapefile : BasFrame)
    (basin_id : String) (buffer_km : ℚ) (res : List StOutRow × BufferResult)
    (b : BasRow) (rest : List BasRow)
    (hm : basinMatches basin_shapefile basin_id = b :: rest)
    (hok : extract_stations_in_basin withinG toCrsG bufferG stations basin_shapefile
      basin_id buffer_km = .ok res) (out : StOutRow) :
    out ∈ res.1 ↔ ∃ r ∈ stations.rows,
      out = { station_id := r.station_id, geometry := r.geometry, basin := basin_id } ∧
      (if buffer_km > 0 then
          withinG (toCrsG r.geometry 3763)
            (bufferG (toCrsG b.geometry 3763) (buffer_km * 1000))
        else withinG r.geometry b.geometry) = true := by
  rw [extract_eq_of_matches withinG toCrsG bufferG stations basin_shapefile
    basin_id buffer_km b rest hm] at hok
  by_cases hb : buffer_km > 0
  · rw [if_pos hb, Except.ok.injEq] at hok
    rw [← hok]
    simp only [if_pos hb, List.mem_map, List.mem_filter]
    constructor
    · rintro ⟨r, ⟨hr, hw⟩, hout⟩
      exact ⟨r, hr, hout.symm, hw⟩
    · rintro ⟨r, hr, hout, hw⟩
      exact ⟨r, ⟨hr, hw⟩, hout.symm⟩
  · rw [if_neg hb, Except.ok.injEq] at hok
    rw [← hok]
    simp only [if_neg hb, List.mem_map, List.mem_filter]
    constructor
    · rintro ⟨r, ⟨hr, hw⟩, hout⟩
      exact ⟨r, hr, hout.symm, hw⟩
    · rintro ⟨r, hr, hout, hw⟩
      exact ⟨r, ⟨hr, hw⟩, hout.symm⟩

theorem extract_membership_iff_witness :
    (basinMatches exBasins "B1" = [{ Station_ID := "B1", geometry := 20 }]) ∧
    (extract_stations_in_basin cwTrue crsId bufId exStations exBasins "B1" 0 = .ok exRes0) ∧
    (({ station_id := "S1", geometry := 10, basin := "B1" } : StOutRow) ∈ exRes0.1 ↔
      ∃ r ∈ exStations.rows,
        ({ station_id := "S1", geometry := 10, basin := "B1" } : StOutRow) =
          { station_id := r.station_id, geometry := r.geometry, basin := "B1" } ∧
        (if (0 : ℚ) > 0 then
            cwTrue (crsId r.geometry 3763)
              (bufId (crsId 20 3763) ((0 : ℚ) * 1000))
          else cwTrue r.geometry 20) = true) :=
  ⟨rfl, rfl,
   extract_membership_iff cwTrue crsId bufId exStations exBasins "B1" 0 exRes0
     { Station_ID := "B1", geometry := 20 } [] rfl rfl
     { station_id := "S1", geometry := 10, basin := "B1" }⟩

theorem uniqueAux_mem (l : List String) (seen : List String) (a : String) :
    a ∈ uniqueAux seen l ↔ a ∈ l ∧ a ∉ seen := by
  induction l generalizing seen with
  | nil => simp [uniqueAux]
  | cons x xs ih =>
    by_cases hx : x ∈ seen
    · rw [uniqueAux, if_pos hx, ih]
      simp only [List.mem_cons]
      constructor
      · rintro ⟨h1, h2⟩
        exact ⟨Or.inr h1, h2⟩
      · rintro ⟨rfl | h1, h2⟩
        · exact absurd hx h2
        · exact ⟨h1, h2⟩
    · rw [uniqueAux, if_neg hx]
      simp only [List.mem_cons, ih, List.mem_cons]
      constructor
      · rintro (rfl | ⟨h1, h2⟩)
        · exact ⟨Or.inl rfl, hx⟩
        · exact ⟨Or.inr h1, fun hs => h2 (Or.inr hs)⟩
      · rintro ⟨h1, h2⟩
        by_cases hax : a = x
        · exact Or.inl hax
        · rcases h1 with rfl | h1
          · exact absurd rfl hax
          · exact Or.inr ⟨h1, fun hs => hs.elim hax h2⟩

theorem uniqueAux_nodup (l : List String) (seen : List String) :
    (uniqueAux seen l).Nodup := by
  induction l generalizing seen with
  | nil => simp [uniqueAux]
  | cons x xs ih =>
    by_cases hx : x ∈ seen
    · rw [uniqueAux, if_pos hx]
      exact ih seen
    · rw [uniqueAux, if_neg hx]
      refine List.nodup_cons.mpr ⟨fun hmem => ?_, ih (x :: seen)⟩
      exact ((uniqueAux_mem xs (x :: seen) x).mp hmem).2 (List.mem_cons_self _ _)

theorem uniqueKeepFirst_nodup (l : List String) : (uniqueKeepFirst l).Nodup :=
  uniqueAux_nodup l []

theorem mem_uniqueKeepFirst (l : List String) (a : String) :
    a ∈ uniqueKeepFirst l ↔ a ∈ l := by
  rw [uniqueKeepFirst, uniqueAux_mem]
  simp

theorem map_congr_mem {α β : Type} (l : List α) (f g : α → β)
    (h : ∀ a ∈ l, f a = g a) : l.map f = l.map g := by
  induction l with
  | nil => rfl
  | cons x xs ih =>
    rw [List.map_cons, List.map_cons, h x (List.mem_cons_self x xs),
      ih (fun a ha => h a (List.mem_cons_of_mem _ ha))]

theorem coordLookup_eq_of_mem (coords : List CoordRow) (c : CoordRow)
    (hnd : (coords.map (fun x => x.station_id)).Nodup)
    (hc : c ∈ coords) : coordLookup coords c.station_id = some c := by
  induction coords with
  | nil => cases hc
  | cons d ds ih =>
    rw [List.map_cons] at hnd
    have hnd2 := List.nodup_cons.mp hnd
    by_cases hd : (d.station_id == c.station_id) = true
    · rw [coordLookup,
        List.find?_cons_of_pos (p := fun x => x.station_id == c.station_id) ds hd]
      rcases List.mem_cons.mp hc with rfl | hc2
      · rfl
      · exfalso
        have hmem : c.station_id ∈ ds.map (fun x => x.station_id) :=
          List.mem_map_of_mem _ hc2
        exact hnd2.1 ((beq_iff_eq.mp hd) ▸ hmem)
    · rw [coordLookup,
        List.find?_cons_of_neg (p := fun x => x.station_id == c.station_id) ds hd]
      rcases List.mem_cons.mp hc with rfl | hc2
      · exact absurd (beq_self_eq_true _) hd
      · exact ih hnd2.2 hc2

/-- The per-row effect of the whole update loop, as a function of the set of
station ids the loop visits. -/
def rowUpdateIn (coords : List CoordRow) (sids : List String) (r : DataRow) : DataRow :=
  if r.station_id ∈ sids then
    match coordLookup coords r.station_id with
    | some c => { r with lat := c.New_Lat, lon := c.New_Lon }
    | none => r
  else r

theorem foldl_applyUpdate (coords : List CoordRow) (sids : List String)
    (hnd : sids.Nodup) (data : List DataRow) :
    sids.foldl (applyUpdate coords) data = data.map (rowUpdateIn coords sids) := by
  induction sids generalizing data with
  | nil =>
    simp only [List.foldl_nil]
    rw [map_congr_mem data _ (fun r => r) (fun r _ => by rw [rowUpdateIn, if_neg (List.not_mem_nil _)]),
      List.map_id']
  | cons s ss ih =>
    have hs : s ∉ ss := (List.nodup_cons.mp hnd).1
    rw [List.foldl_cons, ih (List.nodup_cons.mp hnd).2 _, applyUpdate]
    cases hlook : coordLookup coords s with
    | none =>
      apply map_congr_mem
      intro r _
      rw [rowUpdateIn, rowUpdateIn]
      by_cases hr : r.station_id ∈ ss
      · rw [if_pos hr, if_pos (List.mem_cons_of_mem _ hr)]
      · by_cases hrs : r.station_id = s
        · rw [if_neg hr, if_pos (by rw [hrs]; exact List.mem_cons_self _ _), hrs, hlook]
        · rw [if_neg hr, if_neg (by
            simp only [List.mem_cons]
            rintro (h | h)
            · exact hrs h
            · exact hr h)]
    | some c =>
      rw [List.map_map]
      apply map_congr_mem
      intro r _
      simp only [Function.comp_apply]
      by_cases hrs : r.station_id = s
      · rw [if_pos (beq_iff_eq.mpr hrs), rowUpdateIn]
        rw [if_neg (by simpa [hrs] using hs), rowUpdateIn,
          if_pos (by rw [hrs]; exact List.mem_cons_self _ _), hrs, hlook]
      · rw [if_neg (by simpa using hrs), rowUpdateIn, rowUpdateIn]
        by_cases hr : r.station_id ∈ ss
        · rw [if_pos hr, if_pos (List.mem_cons_of_mem _ hr)]
        · rw [if_neg hr, if_neg (by
            simp only [List.mem_cons]
            rintro (h | h)
            · exact hrs h
            · exact hr h)]

/-- C3: the DataFrame variant of `update_coordinates` (with a well-formed,
duplicate-free update table) succeeds, returning the mutated input table
itself (the returned value and the post-call table state are one object):
its length is unchanged, every row whose station id has an entry in the
coordinate-update table carries exactly the supplied `New_Lat`/`New_Lon`,
and every row whose station id is absent is returned unchanged. -/
theorem update_coordinates_df_contract (data : List DataRow)
    (coordinates_df : List CoordRow)
    (hnd : (coordinates_df.map (fun c => c.station_id)).Nodup) :
    ∃ out, update_coordinates_df data coordinates_df = .ok (out, out) ∧
      out.length = data.length ∧
      ∀ i r, data.get? i = some r →
        ((∀ c ∈ coordinates_df, c.station_id ≠ r.station_id) →
          out.get? i = some r) ∧
        (∀ c ∈ coordinates_df, c.station_id = r.station_id →
          out.get? i = some { r with lat := c.New_Lat, lon := c.New_Lon }) := by
  have hout := foldl_applyUpdate coordinates_df
    (uniqueKeepFirst (data.map (fun r => r.station_id)))
    (uniqueKeepFirst_nodup _) data
  refine ⟨_, by rw [update_coordinates_df, if_pos hnd], ?_, ?_⟩
  · rw [hout, List.length_map]
  · intro i r hget
    have hr : r ∈ data := List.get?_mem hget
    have hget2 : ((uniqueKeepFirst (data.map (fun r => r.station_id))).foldl
        (applyUpdate coordinates_df) data).get? i =
        some (rowUpdateIn coordinates_df
          (uniqueKeepFirst (data.map (fun x => x.station_id))) r) := by
      rw [hout, List.get?_map, hget, Option.map_some']
    constructor
    · intro habs
      have hlook : coordLookup coordinates_df r.station_id = none :=
        List.find?_eq_none.mpr (fun c hc => by
          simp only [beq_iff_eq]
          exact habs c hc)
      rw [hget2, rowUpdateIn]
      by_cases hmem : r.station_id ∈ uniqueKeepFirst (data.map (fun x => x.station_id))
      · rw [if_pos hmem, hlook]
      · rw [if_neg hmem]
    · intro c hc hceq
      have hmem : r.station_id ∈ uniqueKeepFirst (data.map (fun x => x.station_id)) :=
        (mem_uniqueKeepFirst _ _).mpr (List.mem_map_of_mem _ hr)
      have hlook : coordLookup coordinates_df r.station_id = some c := by
        rw [← hceq]
        exact coordLookup_eq_of_mem coordinates_df c hnd hc
      rw [hget2, rowUpdateIn, if_pos hmem, hlook]

/-- The spec's worked example: stations "A" and "B", update entry for "A". -/
def exUpdData : List DataRow :=
  [{ station_id := "A", lat := 1, lon := 2 }, { station_id := "B", lat := 3, lon := 4 }]

/-- The spec's worked coordinate-update table. -/
def exUpdCoords : List CoordRow :=
  [{ station_id := "A", New_Lat := 51, New_Lon := -114 }]

theorem update_coordinates_df_contract_witness :
    ((exUpdCoords.map (fun c => c.station_id)).Nodup) ∧
    ∃ out, update_coordinates_df exUpdData exUpdCoords = .ok (out, out) ∧
      out.length = exUpdData.length ∧
      ∀ i r, exUpdData.get? i = some r →
        ((∀ c ∈ exUpdCoords, c.station_id ≠ r.station_id) →
          out.get? i = some r) ∧
        (∀ c ∈ exUpdCoords, c.station_id = r.station_id →
          out.get? i = some { r with lat := c.New_Lat, lon := c.New_Lon }) :=
  ⟨by decide, update_coordinates_df_contract exUpdData exUpdCoords (by decide)⟩

theorem sum_map_eq_single (l : List String) (f : String → Nat) (s : String)
    (hnd : l.Nodup) (hs : s ∈ l) (h0 : ∀ x ∈ l, x ≠ s → f x = 0) :
    (l.map f).sum = f s := by
  induction l with
  | nil => cases hs
  | cons x xs ih =>
    rw [List.map_cons, List.sum_cons]
    rcases List.mem_cons.mp hs with rfl | hs2
    · have hz : (xs.map f).sum = 0 := List.sum_eq_zero (fun y hy => by
        obtain ⟨a, ha, hay⟩ := List.mem_map.mp hy
        rw [← hay]
        exact h0 a (List.mem_cons_of_mem _ ha)
          (fun hax => (List.nodup_cons.mp hnd).1 (hax ▸ ha)))
      rw [hz, Nat.add_zero]
    · rw [h0 x (List.mem_cons_self _ _)
        (fun hxs => (List.nodup_cons.mp hnd).1 (hxs ▸ hs2)),
        ih (List.nodup_cons.mp hnd).2 hs2
          (fun y hy hys => h0 y (List.mem_cons_of_mem _ hy) hys),
        Nat.zero_add]

/-- The number of calendar days a station block spans, first to last
observation day inclusive. -/
def daySpan (rows : List HRow) : Nat := maxDay rows - minDay rows + 1

theorem countP_resample_eq (rows : List HRow) (x s : String) :
    (resampleDailyMean rows x).countP (fun r => r.station_id == s) =
      if x = s then (daysRange rows).length else 0 := by
  rw [resampleDailyMean, List.countP_map]
  by_cases hxs : x = s
  · rw [if_pos hxs]
    exact List.countP_eq_length.mpr (fun d _ => by
      simp [Function.comp, hxs])
  · rw [if_neg hxs]
    exact List.countP_eq_zero.mpr (fun d _ => by
      simp [Function.comp, hxs])

theorem mem_resample (rows : List HRow) (x : String) (r : DRow)
    (hr : r ∈ resampleDailyMean rows x) :
    r.station_id = x ∧ r.value = dayMean rows r.time := by
  rw [resampleDailyMean] at hr
  obtain ⟨d, _, hrd⟩ := List.mem_map.mp hr
  rw [← hrd]
  exact ⟨rfl, rfl⟩

/-- A successful `convert_hourly_to_daily` result is the concatenation of
the per-station daily blocks, in first-appearance order of station ids over
the coerced table. -/
theorem convert_ok (df : List HRow) (out : List DRow)
    (hok : (convert_hourly_to_daily df).2 = .ok out) :
    out = ((uniqueKeepFirst ((df.map to_datetime_h).map (fun r => r.station_id))).map
      (fun s => resampleDailyMean (stationData (df.map to_datetime_h) s) s)).flatten := by
  rw [convert_hourly_to_daily] at hok
  simp only [] at hok
  split at hok
  · exact absurd hok (by simp)
  · exact ((Except.ok.injEq _ _).mp hok).symm

/-- C1 (amended): for each station of the input, the number of output rows
bearing that station equals the number of calendar days from the station's
first to its last observation day inclusive (not the number of distinct
observed days); each such row's value is the arithmetic mean of that day's
hourly values when the day has observations, and missing (NaN) when the day
lies in the span but has none. -/
theorem convert_hourly_to_daily_block_shape (df : List HRow) (s : String)
    (out : List DRow)
    (hs : s ∈ uniqueKeepFirst ((df.map to_datetime_h).map (fun r => r.station_id)))
    (hok : (convert_hourly_to_daily df).2 = .ok out) :
    out.countP (fun r => r.station_id == s) =
      daySpan (stationData (df.map to_datetime_h) s) ∧
    ∀ r ∈ out, r.station_id = s →
      (valuesOnDay (stationData (df.map to_datetime_h) s) r.time ≠ [] →
        r.value = some ((valuesOnDay (stationData (df.map to_datetime_h) s) r.time).sum /
          ((valuesOnDay (stationData (df.map to_datetime_h) s) r.time).length : ℚ))) ∧
      (valuesOnDay (stationData (df.map to_datetime_h) s) r.time = [] →
        r.value = none) := by
  have hout := convert_ok df out hok
  constructor
  · rw [hout, List.countP_flatten, List.map_map]
    rw [sum_map_eq_single _ _ s (uniqueKeepFirst_nodup _) hs (fun x _ hxs => by
      simp only [Function.comp_apply]
      rw [countP_resample_eq, if_neg hxs])]
    simp only [Function.comp_apply]
    rw [countP_resample_eq, if_pos rfl, daysRange, List.length_map,
      List.length_range, daySpan]
  · intro r hr hrs
    rw [hout] at hr
    obtain ⟨blk, hblk, hrblk⟩ := List.mem_flatten.mp hr
    obtain ⟨x, _, hxblk⟩ := List.mem_map.mp hblk
    rw [← hxblk] at hrblk
    obtain ⟨hrx, hrval⟩ := mem_resample _ _ _ hrblk
    have hxs : x = s := by rw [← hrx, hrs]
    rw [hxs] at hrval
    constructor
    · intro hne
      rw [hrval]
      simp only [dayMean]
      rw [if_neg (fun h => hne (List.length_eq_zero.mp h))]
    · intro heq
      rw [hrval]
      simp only [dayMean]
      rw [if_pos (by rw [heq]; rfl)]

/-- Two observations of station "A" on the same calendar day (hours 0, 3). -/
def exW : List HRow :=
  [{ station_id := "A", time := 0, timeIsDatetime := false, value := 2 },
   { station_id := "A", time := 3, timeIsDatetime := false, value := 4 }]

/-- Expected daily output for `exW`: one day, mean 3. -/
def exWOut : List DRow := [{ time := 0, value := some 3, station_id := "A" }]

/-- Concrete evaluation of the conversion on `exW`. -/
theorem exW_eval : (convert_hourly_to_daily exW).2 = .ok exWOut := by
  have h2 : dayMean (stationData (exW.map to_datetime_h) "A") 0 = some 3 := by
    norm_num [dayMean, valuesOnDay, stationData, exW, to_datetime_h, dayOf]
  calc (convert_hourly_to_daily exW).2
      = .ok [{ time := 0, value := dayMean (stationData (exW.map to_datetime_h) "A") 0,
               station_id := "A" }] := rfl
    _ = .ok exWOut := by rw [h2]; rfl

theorem convert_hourly_to_daily_block_shape_witness :
    ("A" ∈ uniqueKeepFirst ((exW.map to_datetime_h).map (fun r => r.station_id))) ∧
    ((convert_hourly_to_daily exW).2 = .ok exWOut) ∧
    (exWOut.countP (fun r => r.station_id == "A") =
      daySpan (stationData (exW.map to_datetime_h) "A") ∧
    ∀ r ∈ exWOut, r.station_id = "A" →
      (valuesOnDay (stationData (exW.map to_datetime_h) "A") r.time ≠ [] →
        r.value = some ((valuesOnDay (stationData (exW.map to_datetime_h) "A") r.time).sum /
          ((valuesOnDay (stationData (exW.map to_datetime_h) "A") r.time).length : ℚ))) ∧
      (valuesOnDay (stationData (exW.map to_datetime_h) "A") r.time = [] →
        r.value = none)) :=
  ⟨by decide, exW_eval,
   convert_hourly_to_daily_block_shape exW "A" exWOut (by decide) exW_eval⟩

/-- Station "A" observed on day 0 and day 2 only: two distinct observed
calendar days, but `resample('D')` materialises the gap day as well. -/
def exGapDf : List HRow :=
  [{ station_id := "A", time := 0, timeIsDatetime := false, value := 1 },
   { station_id := "A", time := 48, timeIsDatetime := false, value := 3 }]

/-- The daily rows of a successful conversion (empty list on failure). -/
def okDaily : Except Err (List DRow) → List DRow
  | .ok l => l
  | .error _ => []

/-- Modelled from the spec's words, for comparison only: the number of
distinct calendar days present in a station's input rows. -/
def specDistinctDayCount (df : List HRow) (s : String) : Nat :=
  (((stationData df s).map (fun r => dayOf r.time)).dedup).length

/-- C1 counterexample: with observations on day 0 and day 2 only, the output
holds three rows for station "A" while only two distinct calendar days are
present in its input — the claimed per-station row count fails. -/
theorem convert_hourly_to_daily_gap_counterexample :
    (okDaily (convert_hourly_to_daily exGapDf).2).countP
        (fun r => r.station_id == "A") ≠ specDistinctDayCount exGapDf "A" ∧
    (okDaily (convert_hourly_to_daily exGapDf).2).countP
        (fun r => r.station_id == "A") = 3 ∧
    specDistinctDayCount exGapDf "A" = 2 := by
  exact ⟨by decide, rfl, rfl⟩

/-- C10: `convert_hourly_to_daily` coerces the caller's `time` column on the
original table before any per-station processing: the post-call state of the
input table is its element-wise `pd.to_datetime` image (all other fields
untouched), and the daily result depends only on that coerced table. -/
theorem convert_hourly_to_daily_mutates_input (df : List HRow) :
    (convert_hourly_to_daily df).1 = df.map to_datetime_h ∧
    (∀ r : HRow, (to_datetime_h r).station_id = r.station_id ∧
      (to_datetime_h r).time = r.time ∧ (to_datetime_h r).value = r.value ∧
      (to_datetime_h r).timeIsDatetime = true) ∧
    (convert_hourly_to_daily (df.map to_datetime_h)).2 =
      (convert_hourly_to_daily df).2 := by
  refine ⟨rfl, fun r => ⟨rfl, rfl, rfl, rfl⟩, ?_⟩
  have hidem : (df.map to_datetime_h).map to_datetime_h = df.map to_datetime_h := by
    rw [List.map_map]
    exact map_congr_mem df _ _ (fun r _ => rfl)
  simp only [convert_hourly_to_daily]
  rw [hidem]

end SnowDrought
